import Mathlib

/-!
Shallow embedding of the Harvard Agentic System experiment orchestrators.

Sources embedded here:
- `experiments/story_finishing/main_test.go` (second document: the story
  orchestrator `main`, `createStoryFinishingConfig`, `runStoryFinishing`,
  `stopSGLangTmux`, `stopVLLMTmux`);
- `experiments/story_finishing/main.go` (`createConfig`, the `--policy`
  variant of the story experiment);
- `experiments/model_cascade/main.go` (`runExperiment`, `average`, the
  config generators).

Conventions: Go `float64` metric values are modelled as `ℚ`; wall-clock
measurements and daemon RPCs are oracles supplied as explicit parameters
(`StoryDaemon`, `CascadeDaemon`) whose replies are indexed by per-RPC call
counters, mirroring the order in which the Go code issues the calls.
`fmt.Sprintf`'s `%d` is embedded as `natRepr` (decimal rendering).
-/

/-- Fuel-driven digit expansion (structural recursion, so that the kernel can
evaluate it); `fuel ≥ n` makes the fuel irrelevant. -/
def natDigitsRevAux : ℕ → ℕ → List ℕ
  | 0, _ => []
  | fuel + 1, n => if n = 0 then [] else (n % 10) :: natDigitsRevAux fuel (n / 10)

/-- Decimal digits of `n`, least significant first (empty for 0).
Embeds the digit expansion underlying Go's `%d` formatting verb. -/
def natDigitsRev (n : ℕ) : List ℕ := natDigitsRevAux n n

theorem natDigitsRevAux_fuel :
    ∀ (fuel fuel' n : ℕ), n ≤ fuel → n ≤ fuel' →
      natDigitsRevAux fuel n = natDigitsRevAux fuel' n := by
  intro fuel
  induction fuel with
  | zero =>
    intro fuel' n hf hf'
    interval_cases n
    cases fuel' <;> simp [natDigitsRevAux]
  | succ fuel ih =>
    intro fuel' n hf hf'
    cases fuel' with
    | zero =>
      interval_cases n
      simp [natDigitsRevAux]
    | succ fuel' =>
      simp only [natDigitsRevAux]
      by_cases h : n = 0
      · simp [h]
      · simp only [h, if_false]
        have hn : 0 < n := Nat.pos_of_ne_zero h
        have hlt : n / 10 < n := Nat.div_lt_self hn (by norm_num)
        exact congrArg _ (ih fuel' (n / 10) (by omega) (by omega))

/-- Unfolding equation of `natDigitsRev`. -/
theorem natDigitsRev_eq (n : ℕ) :
    natDigitsRev n = if n = 0 then [] else (n % 10) :: natDigitsRev (n / 10) := by
  by_cases h : n = 0
  · subst h; simp [natDigitsRev, natDigitsRevAux]
  · obtain ⟨m, rfl⟩ := Nat.exists_eq_succ_of_ne_zero h
    simp only [natDigitsRev, natDigitsRevAux, h, if_false]
    have hlt : (m + 1) / 10 < m + 1 := Nat.div_lt_self (Nat.succ_pos m) (by norm_num)
    exact congrArg _ (natDigitsRevAux_fuel m ((m + 1) / 10) ((m + 1) / 10)
      (by omega) (le_refl _))

/-- Character for a decimal digit (`0`–`9` for `d < 10`). -/
def digitChar (d : ℕ) : Char := Char.ofNat (48 + d)

/-- Decimal rendering of a natural number; the embedding of `fmt.Sprintf "%d"`. -/
def natRepr (n : ℕ) : String :=
  if n = 0 then "0" else ⟨((natDigitsRev n).reverse.map digitChar)⟩

/-- Inverse digit map used to prove `natRepr` injective. -/
def charToDigit (c : Char) : ℕ := c.toNat - 48

/-- Value of a least-significant-first digit list. -/
def natFromRev : List ℕ → ℕ
  | [] => 0
  | d :: ds => d + 10 * natFromRev ds

theorem natFromRev_natDigitsRev (n : ℕ) : natFromRev (natDigitsRev n) = n := by
  induction n using Nat.strong_induction_on with
  | _ n ih =>
    rw [natDigitsRev_eq]
    by_cases h : n = 0
    · simp [h, natFromRev]
    · simp only [h, if_false, natFromRev]
      rw [ih (n / 10) (Nat.div_lt_self (Nat.pos_of_ne_zero h) (by norm_num))]
      omega

theorem natDigitsRev_lt_ten (n : ℕ) : ∀ d ∈ natDigitsRev n, d < 10 := by
  induction n using Nat.strong_induction_on with
  | _ n ih =>
    rw [natDigitsRev_eq]
    by_cases h : n = 0
    · simp [h]
    · simp only [h, if_false, List.mem_cons]
      rintro d (rfl | hd)
      · exact Nat.mod_lt _ (by norm_num)
      · exact ih (n / 10) (Nat.div_lt_self (Nat.pos_of_ne_zero h) (by norm_num)) d hd

theorem charToDigit_digitChar {d : ℕ} (hd : d < 10) : charToDigit (digitChar d) = d := by
  interval_cases d <;> rfl

/-- Decoding a rendered number recovers it: `natRepr` has a left inverse. -/
theorem natRepr_decode (n : ℕ) :
    natFromRev ((natRepr n).data.map charToDigit).reverse = n := by
  by_cases h : n = 0
  · simp [h, natRepr, natFromRev, charToDigit]
  · simp only [natRepr, h, if_false]
    have hmap : ((natDigitsRev n).reverse.map digitChar).map charToDigit
        = (natDigitsRev n).reverse := by
      rw [List.map_map]
      have : ∀ d ∈ (natDigitsRev n).reverse, (charToDigit ∘ digitChar) d = id d := by
        intro d hd
        exact charToDigit_digitChar (natDigitsRev_lt_ten n d (List.mem_reverse.mp hd))
      rw [List.map_congr_left this, List.map_id]
    show natFromRev (((natDigitsRev n).reverse.map digitChar).map charToDigit).reverse = n
    rw [hmap, List.reverse_reverse, natFromRev_natDigitsRev]

theorem natRepr_injective : Function.Injective natRepr := by
  intro a b hab
  have := congrArg (fun s => natFromRev (s.data.map charToDigit).reverse) hab
  simpa [natRepr_decode] using this

/-- Embedding of Go's `strings.TrimSpace`: drop whitespace from both ends
(structural recursion over the character list, so the kernel can evaluate it;
Go trims by `unicode.IsSpace`, here `Char.isWhitespace`). -/
def goTrimSpace (s : String) : String :=
  ⟨((s.data.dropWhile Char.isWhitespace).reverse.dropWhile Char.isWhitespace).reverse⟩

/-- Propositional string prefix: the first `p.length` characters of `s` are `p`. -/
def strStartsWith (p s : String) : Prop := s.data.take p.data.length = p.data

instance (p s : String) : Decidable (strStartsWith p s) := by
  unfold strStartsWith; infer_instance

/-- Average helper of `runStoryFinishing` (main_test.go lines 595–604): sums
with a fold, returns 0 on the empty list, else divides by the length. -/
def avg (x : List ℚ) : ℚ :=
  let s := x.foldl (· + ·) 0
  if x.length = 0 then 0 else s / x.length

/-- Average helper of the cascade experiment (model_cascade/main.go lines
536–545): guards the empty list, then folds and divides. -/
def average (values : List ℚ) : ℚ :=
  if values.length = 0 then 0
  else (values.foldl (· + ·) 0) / values.length

/-- Spec-side definition (for refinement comparison only): the arithmetic
mean of a sequence, per §8 "equals the arithmetic mean of per-turn TTFTs". -/
def specArithmeticMean (x : List ℚ) : ℚ := x.sum / x.length

theorem avg_eq_mean (x : List ℚ) : avg x = specArithmeticMean x := by
  unfold avg specArithmeticMean
  rcases x with _ | ⟨a, l⟩
  · simp
  · simp [List.sum_eq_foldl]

/-! ## Workflow config synthesizers -/

/-- One task slot of a workflow config: the agent profile it names and the
`use_context` directive, `none` when the slot carries no such key. -/
structure ConfigTask where
  agentProfile : String
  useContext : Option Bool
deriving DecidableEq, Repr

/-- Structured content of the story workflow config relevant to the claims:
cache policy, optional `small_turn_threshold` line, backend type of the single
server, and the ordered task slots. -/
structure StoryConfig where
  policy : String
  smallTurnThreshold : Option ℕ
  serverBackendType : String
  endpoint : String
  model : String
  tasks : List ConfigTask
deriving DecidableEq, Repr

/-- Model identifier fixed by the story orchestrator (main_test.go line 246). -/
def storyModelName : String := "mistralai/Mistral-7B-Instruct-v0.3"

/-- Embedding of `createConfig` (story_finishing/main.go lines 154–200): one
sglang server with the given policy, `small_turn_threshold` appended iff the
policy is `preserve_on_small_turns`, and `turns` task slots alternating
`story_agent_a`, `story_agent_b` starting with `story_agent_a`; no slot
carries a `use_context` key. -/
def createConfig (policy : String) (turns : ℕ) (backend model : String)
    (smallTurnThreshold : ℕ) : StoryConfig :=
  { policy := policy
    smallTurnThreshold :=
      if policy = "preserve_on_small_turns" then some smallTurnThreshold else none
    serverBackendType := "sglang"
    endpoint := backend
    model := model
    tasks := (List.range turns).map fun i =>
      { agentProfile := if i % 2 = 1 then "story_agent_b" else "story_agent_a"
        useContext := none } }

/-- Embedding of `createStoryFinishingConfig` (main_test.go lines 442–520):
policy is `aggressive_flush` for cache strategy `flush`, else `preserve`;
the server backend is `openai` for backend type `vllm`, else `sglang`; in
both branches the one workflow has exactly the two task slots `agent_i`,
`agent_j`, each with `use_context: false`. -/
def createStoryFinishingConfig (backendType backend cacheStrategy : String) : StoryConfig :=
  let policy := if cacheStrategy = "flush" then "aggressive_flush" else "preserve"
  if backendType = "vllm" then
    { policy := policy
      smallTurnThreshold := none
      serverBackendType := "openai"
      endpoint := backend
      model := "openai:" ++ storyModelName
      tasks := [{ agentProfile := "agent_i", useContext := some false },
                { agentProfile := "agent_j", useContext := some false }] }
  else
    { policy := policy
      smallTurnThreshold := none
      serverBackendType := "sglang"
      endpoint := backend
      model := "sglang:" ++ storyModelName
      tasks := [{ agentProfile := "agent_i", useContext := some false },
                { agentProfile := "agent_j", useContext := some false }] }

/-! ## Story-finishing workload runner (main_test.go lines 522–618) -/

/-- Reply of the daemon's `execute_task`: generated content plus the optional
metrics block (`ttft_ms`, `tpot_ms`), `none` when `resp.Metrics` is nil. -/
structure ExecResp where
  content : String
  metrics : Option (ℚ × ℚ)
deriving DecidableEq, Repr

/-- Oracle for the daemon RPCs and the wall clock. Each RPC is indexed by the
orchestrator's call count for that RPC kind; `executeTask` also receives the
submitted prompt; `elapsedMs n` is the wall-clock elapsed time measured around
the `n`-th `execute_task` call. -/
structure StoryDaemon where
  startWorkflow : ℕ → Except String ℕ
  getNextTask : ℕ → Except String (ℕ × Bool)
  executeTask : ℕ → String → Except String ExecResp
  elapsedMs : ℕ → ℚ

/-- Experimental condition of one story run (validated flags). -/
structure StoryCfg where
  backendType : String
  cacheStrategy : String
  turns : ℕ
  k : ℕ

/-- Embedding of `storyPromptTemplate` (main_test.go lines 256–258) applied to
`k`, `k`, `storyContext`; also covers the redundant empty-context special case
of lines 547–549, which produces the same string. -/
def storyPrompt (k : ℕ) (ctx : String) : String :=
  "We are playing a story finishing game. It is your turn. You are only allowed to give me the next "
    ++ natRepr k
    ++ " tokens. You must give me exactly the next "
    ++ natRepr k
    ++ " tokens to finish the story. The story starts as follows:\n\nOnce upon a time "
    ++ ctx

/-- Per-turn disambiguator prepended for vLLM + flush (main_test.go line 553),
rendered from the orchestrator's 0-based turn counter. -/
def requestTag (turn : ℕ) : String := "Request " ++ natRepr turn ++ ".\n\n"

/-- Prompt construction of one story turn (main_test.go lines 546–554): the
template prompt, with the unique per-request tag prepended exactly when the
backend type is `vllm` and the cache strategy is `flush`. -/
def decoratedPrompt (cfg : StoryCfg) (turn : ℕ) (ctx : String) : String :=
  let prompt := storyPrompt cfg.k ctx
  if cfg.backendType = "vllm" ∧ cfg.cacheStrategy = "flush" then
    requestTag turn ++ prompt
  else prompt

/-- Mutable state of `runStoryFinishing`: RPC call counters, the accumulated
per-turn slices, the growing story context and the turn counter. -/
structure StoryState where
  startCnt : ℕ
  nextCnt : ℕ
  execCnt : ℕ
  ttftPerTurn : List ℚ
  tpotPerTurn : List ℚ
  latencyPerTurnMs : List ℚ
  prompts : List String
  storyContext : String
  turn : ℕ
deriving DecidableEq, Repr

/-- Run Result of a story run as serialized at main_test.go lines 606–617.
The `prompts` trace records the prompt submitted to each `execute_task` call
in order; the wall-clock scalar `total_time_sec` is not modelled (no claim
mentions it), and `story_length_chars` counts characters. -/
structure StoryResult where
  turns : ℕ
  k : ℕ
  avgTtftMs : ℚ
  avgTpotMs : ℚ
  ttftPerTurn : List ℚ
  tpotPerTurn : List ℚ
  latencyPerTurnMs : List ℚ
  storyLengthChars : ℕ
  story : String
  prompts : List String
deriving DecidableEq, Repr

/-- Assembles the Run Result from the final state (main_test.go 606–617). -/
def mkStoryResult (cfg : StoryCfg) (st : StoryState) : StoryResult :=
  { turns := cfg.turns
    k := cfg.k
    avgTtftMs := avg st.ttftPerTurn
    avgTpotMs := avg st.tpotPerTurn
    ttftPerTurn := st.ttftPerTurn
    tpotPerTurn := st.tpotPerTurn
    latencyPerTurnMs := st.latencyPerTurnMs
    storyLengthChars := st.storyContext.length
    story := st.storyContext
    prompts := st.prompts }

/-- Outcome of `runStoryFinishing`: a Run Result on success, an RPC error
(the function's non-nil `error` return), or exhaustion of the outer-loop fuel
(the Go loop would still be spinning after that many workflow executions). -/
inductive StoryOutcome where
  | ok (r : StoryResult)
  | rpcError (msg : String)
  | fuelOut
deriving DecidableEq, Repr

/-- Outcome discriminator: did the run return a Run Result? -/
def StoryOutcome.isOk : StoryOutcome → Bool
  | .ok _ => true
  | _ => false

/-- Placeholder Run Result returned by the total projection on non-`ok`. -/
def emptyStoryResult : StoryResult :=
  { turns := 0, k := 0, avgTtftMs := 0, avgTpotMs := 0, ttftPerTurn := [],
    tpotPerTurn := [], latencyPerTurnMs := [], storyLengthChars := 0,
    story := "", prompts := [] }

/-- Total projection of an outcome to its Run Result. -/
def StoryOutcome.result : StoryOutcome → StoryResult
  | .ok r => r
  | _ => emptyStoryResult

/-- Inner loop of `runStoryFinishing` (main_test.go lines 537–591): up to two
task slots per workflow execution, guarded by `turn < turns` each step; a
`complete` signal from `next_task` ends the inner loop with no other state
change; otherwise the prompt is built, `execute_task` runs, the trimmed
content extends the story context, and one entry is appended to each per-turn
slice before the turn counter is incremented. -/
def innerLoop (cfg : StoryCfg) (d : StoryDaemon) : ℕ → StoryState → Except String StoryState
  | 0, st => .ok st
  | steps + 1, st =>
    if st.turn < cfg.turns then
      match d.getNextTask st.nextCnt with
      | .error e => .error ("get next task: " ++ e)
      | .ok (_taskIndex, complete) =>
        let st1 : StoryState := { st with nextCnt := st.nextCnt + 1 }
        if complete then .ok st1
        else
          let prompt := decoratedPrompt cfg st1.turn st1.storyContext
          match d.executeTask st1.execCnt prompt with
          | .error e => .error ("execute task: " ++ e)
          | .ok resp =>
            let elapsed := d.elapsedMs st1.execCnt
            let content := goTrimSpace resp.content
            let newCtx :=
              if content ≠ "" then
                if st1.storyContext ≠ "" then st1.storyContext ++ " " ++ content
                else content
              else st1.storyContext
            let tt : ℚ × ℚ := match resp.metrics with | some m => m | none => (0, 0)
            innerLoop cfg d steps
              { st1 with
                execCnt := st1.execCnt + 1
                storyContext := newCtx
                latencyPerTurnMs := st1.latencyPerTurnMs ++ [elapsed]
                ttftPerTurn := st1.ttftPerTurn ++ [tt.1]
                tpotPerTurn := st1.tpotPerTurn ++ [tt.2]
                prompts := st1.prompts ++ [prompt]
                turn := st1.turn + 1 }
    else .ok st

/-- Outer loop of `runStoryFinishing` (main_test.go lines 531–592): while the
turn counter is below `turns`, start a fresh workflow execution and run the
inner loop over its two task slots. `fuel` bounds the number of outer
iterations; the Go loop has no such bound and spins if the daemon always
signals `complete`. -/
def outerLoop (cfg : StoryCfg) (d : StoryDaemon) : ℕ → StoryState → StoryOutcome
  | 0, st =>
    if st.turn < cfg.turns then .fuelOut else .ok (mkStoryResult cfg st)
  | fuel + 1, st =>
    if st.turn < cfg.turns then
      match d.startWorkflow st.startCnt with
      | .error e => .rpcError ("start workflow: " ++ e)
      | .ok _execId =>
        match innerLoop cfg d 2 { st with startCnt := st.startCnt + 1 } with
        | .error e => .rpcError e
        | .ok st' => outerLoop cfg d fuel st'
    else .ok (mkStoryResult cfg st)

/-- Initial state of a story run. -/
def initStoryState : StoryState :=
  { startCnt := 0, nextCnt := 0, execCnt := 0, ttftPerTurn := [],
    tpotPerTurn := [], latencyPerTurnMs := [], prompts := [],
    storyContext := "", turn := 0 }

/-- Embedding of `runStoryFinishing` (main_test.go lines 522–618). -/
def runStoryFinishing (cfg : StoryCfg) (d : StoryDaemon) (fuel : ℕ) : StoryOutcome :=
  outerLoop cfg d fuel initStoryState

/-! ## Model-cascade workload runner (model_cascade/main.go lines 332–534) -/

/-- One SWE-Bench-inspired task: an issue description and starting code. -/
structure CascadeTask where
  issue : String
  code : String
deriving DecidableEq, Repr

/-- The fixed 20-item task list of model_cascade/main.go lines 340–421
(apostrophes, braces and backticks are written as hex escapes). -/
def cascadeTasks : List CascadeTask := [
  { issue := "The \x60validate_email\x60 function incorrectly accepts emails with consecutive dots (e.g., \x27user..name@example.com\x27). Please fix the validation logic.",
    code := "def validate_email(email):\n    return \x27@\x27 in email and \x27.\x27 in email.split(\x27@\x27)[1]" },
  { issue := "The API endpoint \x60/api/users/\x7bid\x7d\x60 returns 500 error when user ID is not found. It should return 404 with a proper error message instead.",
    code := "def get_user(user_id):\n    user = db.query(User).filter(User.id == user_id).first()\n    return user.to_dict()" },
  { issue := "The \x60calculate_total\x60 function doesn\x27t handle negative prices correctly. Negative prices should be treated as discounts and subtracted from the total.",
    code := "def calculate_total(items):\n    return sum(item[\x27price\x27] for item in items)" },
  { issue := "The \x60parse_date\x60 function fails when given dates in \x27YYYY-MM-DD\x27 format. Add support for this ISO 8601 format.",
    code := "def parse_date(date_str):\n    return datetime.strptime(date_str, \x27%m/%d/%Y\x27)" },
  { issue := "The \x60find_duplicates\x60 function has O(n²) time complexity. Optimize it to use a hash set for O(n) performance.",
    code := "def find_duplicates(arr):\n    duplicates = []\n    for i in range(len(arr)):\n        for j in range(i+1, len(arr)):\n            if arr[i] == arr[j]:\n                duplicates.append(arr[i])\n    return duplicates" },
  { issue := "The \x60sanitize_input\x60 function doesn\x27t escape HTML special characters. This creates an XSS vulnerability. Please fix it.",
    code := "def sanitize_input(text):\n    return text.strip()" },
  { issue := "The \x60merge_dicts\x60 function overwrites values when keys conflict. It should merge nested dictionaries recursively instead.",
    code := "def merge_dicts(dict1, dict2):\n    result = dict1.copy()\n    result.update(dict2)\n    return result" },
  { issue := "The \x60format_currency\x60 function doesn\x27t handle negative amounts correctly. Negative amounts should be formatted with parentheses: (USD 100.00).",
    code := "def format_currency(amount, currency=\x27USD\x27):\n    return f\x27\x7bcurrency\x7d \x7bamount:.2f\x7d\x27" },
  { issue := "The \x60validate_password\x60 function only checks length. Add checks for: at least one uppercase letter, one lowercase letter, one digit, and one special character.",
    code := "def validate_password(password):\n    return len(password) >= 8" },
  { issue := "The \x60retry_request\x60 function doesn\x27t implement exponential backoff. Add exponential backoff with jitter to prevent thundering herd problems.",
    code := "def retry_request(url, max_retries=3):\n    for i in range(max_retries):\n        try:\n            return requests.get(url)\n        except:\n            time.sleep(1)\n    raise Exception(\x27Max retries exceeded\x27)" },
  { issue := "The \x60parse_csv\x60 function fails when CSV contains quoted fields with commas. Add proper CSV parsing that handles quoted fields.",
    code := "def parse_csv(csv_text):\n    return [line.split(\x27,\x27) for line in csv_text.split(\x27\\n\x27)]" },
  { issue := "The \x60calculate_age\x60 function gives incorrect results for leap year birthdays. Fix the date calculation to handle leap years correctly.",
    code := "def calculate_age(birth_date):\n    today = datetime.now()\n    return (today - birth_date).days // 365" },
  { issue := "The \x60sort_by_key\x60 function doesn\x27t handle None values. None values should be sorted to the end of the list.",
    code := "def sort_by_key(items, key_func):\n    return sorted(items, key=key_func)" },
  { issue := "The \x60truncate_string\x60 function cuts words in the middle. Modify it to truncate at word boundaries and add ellipsis.",
    code := "def truncate_string(text, max_length):\n    return text[:max_length]" },
  { issue := "The \x60find_missing_numbers\x60 function has O(n²) complexity. Optimize it to find all missing numbers in range [1, n] in O(n) time.",
    code := "def find_missing_numbers(arr, n):\n    missing = []\n    for i in range(1, n+1):\n        if i not in arr:\n            missing.append(i)\n    return missing" },
  { issue := "The \x60normalize_path\x60 function doesn\x27t handle \x27..\x27 and \x27.\x27 correctly. Implement proper path normalization that resolves parent and current directory references.",
    code := "def normalize_path(path):\n    return path.replace(\x27\\\\\x27, \x27/\x27)" },
  { issue := "The \x60batch_process\x60 function processes all items in memory at once. Refactor it to process items in chunks to reduce memory usage.",
    code := "def batch_process(items, process_func):\n    return [process_func(item) for item in items]" },
  { issue := "The \x60validate_url\x60 function accepts invalid URLs like \x27http://\x27 or \x27not-a-url\x27. Add proper URL validation using regex or a URL parsing library.",
    code := "def validate_url(url):\n    return url.startswith(\x27http://\x27) or url.startswith(\x27https://\x27)" },
  { issue := "The \x60format_phone_number\x60 function doesn\x27t handle international formats. Add support for formatting phone numbers in E.164 format (+1234567890).",
    code := "def format_phone_number(phone):\n    return f\x27(\x7bphone[:3]\x7d) \x7bphone[3:6]\x7d-\x7bphone[6:]\x7d\x27" },
  { issue := "The \x60calculate_median\x60 function has O(n log n) complexity due to sorting. Use a selection algorithm to achieve O(n) average case complexity.",
    code := "def calculate_median(numbers):\n    sorted_nums = sorted(numbers)\n    mid = len(sorted_nums) // 2\n    return sorted_nums[mid]" }]

/-- Analysis-stage prompt (model_cascade/main.go line 453). -/
def analysisPrompt (t : CascadeTask) : String :=
  "Analyze this software engineering issue and identify the problem:\n\nIssue: "
    ++ t.issue
    ++ "\n\nCurrent code:\n\x60\x60\x60python\n"
    ++ t.code
    ++ "\n\x60\x60\x60\n\nProvide a brief analysis: what is the problem, what needs to be fixed, and what approach should be taken?"

/-- Synthesis-stage prompt (model_cascade/main.go line 474). -/
def synthesisPrompt (t : CascadeTask) : String :=
  "Based on the analysis, generate the fixed code for this issue:\n\nIssue: "
    ++ t.issue
    ++ "\n\nOriginal code:\n\x60\x60\x60python\n"
    ++ t.code
    ++ "\n\x60\x60\x60\n\nProvide the complete fixed function with proper error handling and edge cases."

/-- Summary-stage prompt (model_cascade/main.go line 495). -/
def summaryPrompt (t : CascadeTask) : String :=
  "Summarize the fix that was applied to resolve this issue in 2-3 sentences:\n\nIssue: "
    ++ t.issue

/-- Oracle for the cascade daemon RPCs and the wall clock, indexed by call
counts; `stageElapsedMs n` is the elapsed time measured around the `n`-th
`execute_task` call, `taskElapsedMs i` the per-task total of iteration `i`. -/
structure CascadeDaemon where
  startWorkflow : ℕ → Except String ℕ
  getNextTask : ℕ → Except String (ℕ × Bool)
  executeTask : ℕ → String → Except String Unit
  stageElapsedMs : ℕ → ℚ
  taskElapsedMs : ℕ → ℚ

/-- Mutable state of the cascade `runExperiment` loop. -/
structure CascadeState where
  startCnt : ℕ
  nextCnt : ℕ
  execCnt : ℕ
  analysisTimes : List ℚ
  synthesisTimes : List ℚ
  summaryTimes : List ℚ
  totalTimes : List ℚ
deriving DecidableEq, Repr

/-- Result of one iteration of the cascade task loop: proceed to the next
index, a Go `break` (leave the whole loop, keeping the state accumulated so
far), or a fatal RPC error. -/
inductive CascadeStep where
  | next (st : CascadeState)
  | broke (st : CascadeState)
  | failed (msg : String)

/-- One iteration of the cascade loop body (model_cascade/main.go lines
431–511): start a workflow, then the three stages analysis → synthesis →
summary; each stage asks for the next task (a `complete` signal executes Go
`break`, leaving the loop), executes it, and appends the measured stage time;
a full iteration also appends the per-task total. -/
def cascadeIteration (d : CascadeDaemon) (task : CascadeTask) (st0 : CascadeState) :
    CascadeStep :=
  match d.startWorkflow st0.startCnt with
  | .error e => .failed ("failed to start workflow: " ++ e)
  | .ok _execId =>
    let st : CascadeState := { st0 with startCnt := st0.startCnt + 1 }
    match d.getNextTask st.nextCnt with
    | .error e => .failed ("failed to get analysis task: " ++ e)
    | .ok (_ti1, complete1) =>
      let st : CascadeState := { st with nextCnt := st.nextCnt + 1 }
      if complete1 then .broke st
      else
        match d.executeTask st.execCnt (analysisPrompt task) with
        | .error e => .failed ("failed to execute analysis task: " ++ e)
        | .ok _ =>
          let st : CascadeState := { st with
            execCnt := st.execCnt + 1
            analysisTimes := st.analysisTimes ++ [d.stageElapsedMs st.execCnt] }
          match d.getNextTask st.nextCnt with
          | .error e => .failed ("failed to get synthesis task: " ++ e)
          | .ok (_ti2, complete2) =>
            let st : CascadeState := { st with nextCnt := st.nextCnt + 1 }
            if complete2 then .broke st
            else
              match d.executeTask st.execCnt (synthesisPrompt task) with
              | .error e => .failed ("failed to execute synthesis task: " ++ e)
              | .ok _ =>
                let st : CascadeState := { st with
                  execCnt := st.execCnt + 1
                  synthesisTimes := st.synthesisTimes ++ [d.stageElapsedMs st.execCnt] }
                match d.getNextTask st.nextCnt with
                | .error e => .failed ("failed to get summary task: " ++ e)
                | .ok (_ti3, complete3) =>
                  let st : CascadeState := { st with nextCnt := st.nextCnt + 1 }
                  if complete3 then .broke st
                  else
                    match d.executeTask st.execCnt (summaryPrompt task) with
                    | .error e => .failed ("failed to execute summary task: " ++ e)
                    | .ok _ =>
                      let st : CascadeState := { st with
                        execCnt := st.execCnt + 1
                        summaryTimes := st.summaryTimes ++ [d.stageElapsedMs st.execCnt] }
                      .next { st with
                        totalTimes := st.totalTimes ++ [d.taskElapsedMs st0.startCnt] }

/-- Default task used by the safe list lookup (never reached: the loop bound
keeps the index inside the list). -/
def defaultCascadeTask : CascadeTask := { issue := "", code := "" }

/-- The cascade task loop (model_cascade/main.go line 431): iterates `i` from
0 while `i < numTasks && i < len(tasks)`, drawing `tasks[i % len(tasks)]`. -/
def cascadeLoop (d : CascadeDaemon) (numTasks : ℕ) (i : ℕ) (st : CascadeState) :
    Except String CascadeState :=
  if h : i < numTasks ∧ i < cascadeTasks.length then
    match cascadeIteration d (cascadeTasks.getD (i % cascadeTasks.length) defaultCascadeTask) st with
    | .failed e => .error e
    | .broke st1 => .ok st1
    | .next st1 => cascadeLoop d numTasks (i + 1) st1
  else .ok st
termination_by numTasks - i
decreasing_by exact Nat.sub_lt_sub_left h.1 (Nat.lt_succ_self i)

/-- Run Result of the cascade experiment as serialized at model_cascade/main.go
lines 521–533 (the wall-clock scalar `total_time_seconds` is not modelled). -/
structure CascadeResult where
  mode : String
  numTasks : ℕ
  avgAnalysisMs : ℚ
  avgSynthesisMs : ℚ
  avgSummaryMs : ℚ
  avgTotalMs : ℚ
  analysisTimes : List ℚ
  synthesisTimes : List ℚ
  summaryTimes : List ℚ
  totalTimes : List ℚ
deriving DecidableEq, Repr

/-- Outcome of the cascade `runExperiment`. -/
inductive CascadeOutcome where
  | ok (r : CascadeResult)
  | rpcError (msg : String)
deriving DecidableEq, Repr

/-- Outcome discriminator. -/
def CascadeOutcome.isOk : CascadeOutcome → Bool
  | .ok _ => true
  | _ => false

/-- Placeholder result for the total projection. -/
def emptyCascadeResult : CascadeResult :=
  { mode := "", numTasks := 0, avgAnalysisMs := 0, avgSynthesisMs := 0,
    avgSummaryMs := 0, avgTotalMs := 0, analysisTimes := [],
    synthesisTimes := [], summaryTimes := [], totalTimes := [] }

/-- Total projection of a cascade outcome to its result. -/
def CascadeOutcome.result : CascadeOutcome → CascadeResult
  | .ok r => r
  | _ => emptyCascadeResult

/-- Embedding of the cascade `runExperiment` (model_cascade/main.go lines
332–534): run the task loop from index 0, then aggregate with `average`. -/
def runExperiment (d : CascadeDaemon) (mode : String) (numTasks : ℕ) : CascadeOutcome :=
  match cascadeLoop d numTasks 0
      { startCnt := 0, nextCnt := 0, execCnt := 0, analysisTimes := [],
        synthesisTimes := [], summaryTimes := [], totalTimes := [] } with
  | .error e => .rpcError e
  | .ok st =>
    .ok { mode := mode
          numTasks := numTasks
          avgAnalysisMs := average st.analysisTimes
          avgSynthesisMs := average st.synthesisTimes
          avgSummaryMs := average st.summaryTimes
          avgTotalMs := average st.totalTimes
          analysisTimes := st.analysisTimes
          synthesisTimes := st.synthesisTimes
          summaryTimes := st.summaryTimes
          totalTimes := st.totalTimes }

/-! ## Teardown (main_test.go lines 729–744 and 796–807) and startup -/

/-- External teardown actions of the story orchestrator. -/
inductive TAction where
  | dockerRmContainer
  | tmuxKillWindow
  | killDaemonProcess
  | removeConfigFile
deriving DecidableEq, Repr

/-- Outcome environment of one teardown: whether the `sudo docker rm -f`
command and the `tmux kill-window` command exit nonzero (either fails when
its target is already absent, among other reasons). -/
structure TeardownEnv where
  rmFails : Bool
  killWindowFails : Bool
deriving DecidableEq, Repr

/-- Result of a teardown function: it either returns to its caller or exits
the whole process on the spot (`log.Fatalf`); both carry the list of external
actions the function attempted, in order. -/
inductive StopResult where
  | returned (attempted : List TAction)
  | fatalExit (attempted : List TAction)
deriving DecidableEq, Repr

/-- Embedding of `stopSGLangTmux` (main_test.go lines 729–744): run
`docker rm -f`; on failure `log.Fatalf` (process exit, nothing further runs);
otherwise run `tmux kill-window`, whose failure is only logged. -/
def stopSGLangTmux (env : TeardownEnv) : StopResult :=
  if env.rmFails then .fatalExit [TAction.dockerRmContainer]
  else .returned [TAction.dockerRmContainer, TAction.tmuxKillWindow]

/-- Embedding of `stopVLLMTmux` (main_test.go lines 796–807): identical
structure to `stopSGLangTmux`. -/
def stopVLLMTmux (env : TeardownEnv) : StopResult :=
  if env.rmFails then .fatalExit [TAction.dockerRmContainer]
  else .returned [TAction.dockerRmContainer, TAction.tmuxKillWindow]

/-- Deferred teardown of `main` for a run started with `--start-sglang`,
executed LIFO when `main` returns (defers registered at main_test.go lines
317, 324, 364–368): kill the daemon child, then `stopSGLangTmux`, then remove
the workflow-config file. Returns the attempted actions in order, paired with
`true` when a `log.Fatalf` inside `stopSGLangTmux` exited the process early,
skipping the remaining deferred actions. -/
def mainDeferredTeardown (env : TeardownEnv) : List TAction × Bool :=
  match stopSGLangTmux env with
  | .returned acts => (TAction.killDaemonProcess :: acts ++ [TAction.removeConfigFile], false)
  | .fatalExit acts => (TAction.killDaemonProcess :: acts, true)

/-- Parsed flag values of the story orchestrator (main_test.go lines 270–279,
after `flag.Parse` and before validation). -/
structure StoryFlags where
  turns : ℕ
  k : ℕ
  cacheStrategy : String
  backendType : String
  backend : String
  noiseRate : ℚ
  startSGLang : Bool
  startVLLM : Bool
  output : String

/-- External actions of `main`'s startup prefix. -/
inductive StartAction where
  | killallOrla
  | mkdirOutputDir
  | writeConfigFile
deriving DecidableEq, Repr

/-- Result of the startup prefix of `main`: a `log.Fatalf` (nonzero process
exit) or proceeding into the experiment with the synthesized config; both
carry the external actions taken so far, in order. -/
inductive StartupResult where
  | fatal (attempted : List StartAction)
  | proceed (attempted : List StartAction) (config : StoryConfig)
deriving DecidableEq, Repr

/-- Embedding of the startup prefix of `main` (main_test.go lines 260–317):
require SUDO_PASSWORD, unconditionally run `killall orla`, validate
backend-type, the start-flag combinations and the cache strategy in that
order (each failure is a `log.Fatalf`), create the output directory when an
output path was given, then write the workflow-config file. The model ends at
the config file; the subsequent engine/daemon actions are beyond the startup
claims. The directory and config-file writes are modelled as succeeding. -/
def mainStartup (sudoPasswordSet : Bool) (f : StoryFlags) : StartupResult :=
  if ¬ sudoPasswordSet then .fatal []
  else
    let acts := [StartAction.killallOrla]
    if ¬ (f.backendType = "sglang" ∨ f.backendType = "vllm") then .fatal acts
    else if f.startSGLang ∧ f.startVLLM then .fatal acts
    else if f.startVLLM ∧ ¬ f.backendType = "vllm" then .fatal acts
    else if f.startSGLang ∧ ¬ f.backendType = "sglang" then .fatal acts
    else if ¬ (f.cacheStrategy = "flush" ∨ f.cacheStrategy = "preserve") then .fatal acts
    else
      let acts := if ¬ f.output = "" then acts ++ [StartAction.mkdirOutputDir] else acts
      .proceed (acts ++ [StartAction.writeConfigFile])
        (createStoryFinishingConfig f.backendType f.backend f.cacheStrategy)

/-! ## Invariants of the story run -/

/-- Bookkeeping invariant of the story loop: the turn counter never exceeds
`turns`, and each per-turn slice — and the prompt trace — has exactly one
entry per executed turn. -/
def StoryInv (cfg : StoryCfg) (st : StoryState) : Prop :=
  st.turn ≤ cfg.turns ∧
  st.ttftPerTurn.length = st.turn ∧
  st.tpotPerTurn.length = st.turn ∧
  st.latencyPerTurnMs.length = st.turn ∧
  st.prompts.length = st.turn

theorem innerLoop_inv (cfg : StoryCfg) (d : StoryDaemon) :
    ∀ (steps : ℕ) (st st' : StoryState), StoryInv cfg st →
      innerLoop cfg d steps st = Except.ok st' → StoryInv cfg st' := by
  intro steps
  induction steps with
  | zero =>
    intro st st' hInv h
    simp only [innerLoop] at h
    cases h
    exact hInv
  | succ steps ih =>
    intro st st' hInv h
    simp only [innerLoop] at h
    by_cases hlt : st.turn < cfg.turns
    · simp only [hlt, if_true] at h
      cases hnext : d.getNextTask st.nextCnt with
      | error e => rw [hnext] at h; cases h
      | ok pr =>
        rw [hnext] at h
        obtain ⟨ti, complete⟩ := pr
        cases complete with
        | true =>
          simp only [if_true] at h
          cases h
          exact ⟨hInv.1, hInv.2.1, hInv.2.2.1, hInv.2.2.2.1, hInv.2.2.2.2⟩
        | false =>
          simp only [Bool.false_eq_true, if_false] at h
          cases hexec : d.executeTask st.execCnt
              (decoratedPrompt cfg st.turn st.storyContext) with
          | error e => rw [hexec] at h; cases h
          | ok resp =>
            rw [hexec] at h
            refine ih _ st' ?_ h
            refine ⟨hlt, ?_, ?_, ?_, ?_⟩ <;>
              simp [List.length_append, hInv.2.1, hInv.2.2.1, hInv.2.2.2.1,
                hInv.2.2.2.2]
    · simp only [hlt, if_false] at h
      cases h
      exact hInv

theorem outerLoop_ok (cfg : StoryCfg) (d : StoryDaemon) :
    ∀ (fuel : ℕ) (st : StoryState) (r : StoryResult), StoryInv cfg st →
      outerLoop cfg d fuel st = StoryOutcome.ok r →
      ∃ st', r = mkStoryResult cfg st' ∧ StoryInv cfg st' ∧ st'.turn = cfg.turns := by
  intro fuel
  induction fuel with
  | zero =>
    intro st r hInv h
    simp only [outerLoop] at h
    by_cases hlt : st.turn < cfg.turns
    · simp [hlt] at h
    · simp only [hlt, if_false] at h
      cases h
      exact ⟨st, rfl, hInv, Nat.le_antisymm hInv.1 (Nat.le_of_not_lt hlt)⟩
  | succ fuel ih =>
    intro st r hInv h
    simp only [outerLoop] at h
    by_cases hlt : st.turn < cfg.turns
    · simp only [hlt, if_true] at h
      cases hstart : d.startWorkflow st.startCnt with
      | error e => rw [hstart] at h; cases h
      | ok execId =>
        rw [hstart] at h
        cases hin : innerLoop cfg d 2 { st with startCnt := st.startCnt + 1 } with
        | error e => rw [hin] at h; cases h
        | ok st1 =>
          rw [hin] at h
          have hInv1 : StoryInv cfg st1 :=
            innerLoop_inv cfg d 2 { st with startCnt := st.startCnt + 1 } st1
              ⟨hInv.1, hInv.2.1, hInv.2.2.1, hInv.2.2.2.1, hInv.2.2.2.2⟩ hin
          exact ih st1 r hInv1 h
    · simp only [hlt, if_false] at h
      cases h
      exact ⟨st, rfl, hInv, Nat.le_antisymm hInv.1 (Nat.le_of_not_lt hlt)⟩

theorem innerLoop_complete_break (cfg : StoryCfg) (d : StoryDaemon)
    (st : StoryState) (steps ti : ℕ)
    (hlt : st.turn < cfg.turns)
    (hc : d.getNextTask st.nextCnt = Except.ok (ti, true)) :
    innerLoop cfg d (steps + 1) st = Except.ok { st with nextCnt := st.nextCnt + 1 } := by
  simp only [innerLoop, hlt, if_true, hc]

/-! ## C4 -/

/-- C4: for every story run that returns successfully, each of
`ttft_per_turn`, `tpot_per_turn` and `latency_per_turn_ms` has length exactly
`turns`; and a `complete` signal from `next_task` before all slots have run
ends the inner loop with the turn counter and all per-turn slices unchanged
(only the `next_task` call counter advances). -/
theorem story_success_records_turns (cfg : StoryCfg) (d : StoryDaemon) (fuel : ℕ)
    (r : StoryResult) (st : StoryState) (steps ti : ℕ)
    (h : runStoryFinishing cfg d fuel = StoryOutcome.ok r)
    (hlt : st.turn < cfg.turns)
    (hc : d.getNextTask st.nextCnt = Except.ok (ti, true)) :
    (r.ttftPerTurn.length = cfg.turns ∧ r.tpotPerTurn.length = cfg.turns ∧
      r.latencyPerTurnMs.length = cfg.turns) ∧
    innerLoop cfg d (steps + 1) st = Except.ok { st with nextCnt := st.nextCnt + 1 } := by
  constructor
  · have hInv0 : StoryInv cfg initStoryState :=
      ⟨Nat.zero_le _, rfl, rfl, rfl, rfl⟩
    obtain ⟨st', hr, hInv, hturn⟩ := outerLoop_ok cfg d fuel initStoryState r hInv0 h
    subst hr
    exact ⟨hInv.2.1.trans hturn, hInv.2.2.1.trans hturn, hInv.2.2.2.1.trans hturn⟩
  · exact innerLoop_complete_break cfg d st steps ti hlt hc

/-- Concrete story condition: vLLM backend, flush strategy, 2 turns, k = 4
(the literal scenario of spec §8, end-to-end scenario 3). -/
def storyCfgVF : StoryCfg :=
  { backendType := "vllm", cacheStrategy := "flush", turns := 2, k := 4 }

/-- Concrete story condition: sglang backend, preserve strategy. -/
def storyCfgSP : StoryCfg :=
  { backendType := "sglang", cacheStrategy := "preserve", turns := 2, k := 4 }

/-- Concrete daemon oracle: all RPCs succeed, `next_task` signals complete
from its 6th call on, every reply carries content "hi" and a metrics block. -/
def storyDaemonA : StoryDaemon :=
  { startWorkflow := fun n => Except.ok n
    getNextTask := fun n => Except.ok (n, decide (5 ≤ n))
    executeTask := fun _ _ => Except.ok { content := "hi", metrics := some (1, 2) }
    elapsedMs := fun n => (n : ℚ) + 3 }

theorem story_success_records_turns_witness :
    runStoryFinishing storyCfgVF storyDaemonA 1 =
      StoryOutcome.ok ((runStoryFinishing storyCfgVF storyDaemonA 1).result) ∧
    ((0 : ℕ) < storyCfgVF.turns ∧
      storyDaemonA.getNextTask 7 = Except.ok (7, true)) ∧
    (((runStoryFinishing storyCfgVF storyDaemonA 1).result).ttftPerTurn.length
        = storyCfgVF.turns ∧
      ((runStoryFinishing storyCfgVF storyDaemonA 1).result).tpotPerTurn.length
        = storyCfgVF.turns ∧
      ((runStoryFinishing storyCfgVF storyDaemonA 1).result).latencyPerTurnMs.length
        = storyCfgVF.turns) ∧
    innerLoop storyCfgVF storyDaemonA 1 { initStoryState with nextCnt := 7 }
      = Except.ok { initStoryState with nextCnt := 8 } := by
  have h : runStoryFinishing storyCfgVF storyDaemonA 1 =
      StoryOutcome.ok ((runStoryFinishing storyCfgVF storyDaemonA 1).result) := rfl
  have main := story_success_records_turns storyCfgVF storyDaemonA 1
    ((runStoryFinishing storyCfgVF storyDaemonA 1).result)
    { initStoryState with nextCnt := 7 } 0 7 h (by decide) rfl
  exact ⟨h, ⟨by decide, rfl⟩, main.1, main.2⟩

/-! ## C5 -/

/-- C5: for every story run that returns successfully with a non-empty
sequence of turn records, the serialized `avg_ttft_ms` equals the arithmetic
mean of the per-turn TTFT values, and `avg_tpot_ms` the arithmetic mean of
the per-turn TPOT values. -/
theorem story_avg_is_arithmetic_mean (cfg : StoryCfg) (d : StoryDaemon) (fuel : ℕ)
    (r : StoryResult)
    (h : runStoryFinishing cfg d fuel = StoryOutcome.ok r)
    (hne : r.ttftPerTurn ≠ []) :
    r.avgTtftMs = specArithmeticMean r.ttftPerTurn ∧
    r.avgTpotMs = specArithmeticMean r.tpotPerTurn := by
  have hInv0 : StoryInv cfg initStoryState := ⟨Nat.zero_le _, rfl, rfl, rfl, rfl⟩
  obtain ⟨st', hr, -, -⟩ := outerLoop_ok cfg d fuel initStoryState r hInv0 h
  subst hr
  exact ⟨avg_eq_mean _, avg_eq_mean _⟩

theorem story_avg_is_arithmetic_mean_witness :
    runStoryFinishing storyCfgVF storyDaemonA 1 =
      StoryOutcome.ok ((runStoryFinishing storyCfgVF storyDaemonA 1).result) ∧
    ((runStoryFinishing storyCfgVF storyDaemonA 1).result).ttftPerTurn ≠ [] ∧
    (((runStoryFinishing storyCfgVF storyDaemonA 1).result).avgTtftMs =
        specArithmeticMean ((runStoryFinishing storyCfgVF storyDaemonA 1).result).ttftPerTurn ∧
      ((runStoryFinishing storyCfgVF storyDaemonA 1).result).avgTpotMs =
        specArithmeticMean ((runStoryFinishing storyCfgVF storyDaemonA 1).result).tpotPerTurn) := by
  have h : runStoryFinishing storyCfgVF storyDaemonA 1 =
      StoryOutcome.ok ((runStoryFinishing storyCfgVF storyDaemonA 1).result) := rfl
  have hne : ((runStoryFinishing storyCfgVF storyDaemonA 1).result).ttftPerTurn ≠ [] := by
    decide
  exact ⟨h, hne, story_avg_is_arithmetic_mean storyCfgVF storyDaemonA 1 _ h hne⟩

/-! ## C9 -/

/-- Invariant of a run against a daemon whose `execute_task` replies carry no
metrics block: counters line up and the recorded TTFT/TPOT entries so far are
all zero, with the latencies taken from the wall clock. -/
def NoMetricsInv (cfg : StoryCfg) (d : StoryDaemon) (st : StoryState) : Prop :=
  st.execCnt = st.turn ∧
  st.ttftPerTurn = List.replicate st.turn 0 ∧
  st.tpotPerTurn = List.replicate st.turn 0 ∧
  st.latencyPerTurnMs = (List.range st.turn).map d.elapsedMs ∧
  st.turn ≤ cfg.turns

theorem innerLoop_noMetrics (cfg : StoryCfg) (d : StoryDaemon)
    (tIdx : ℕ → ℕ) (cont : ℕ → String)
    (hn : ∀ n, d.getNextTask n = Except.ok (tIdx n, false))
    (he : ∀ n p, d.executeTask n p = Except.ok { content := cont n, metrics := none }) :
    ∀ (steps : ℕ) (st : StoryState), NoMetricsInv cfg d st →
      ∃ st', innerLoop cfg d steps st = Except.ok st' ∧ NoMetricsInv cfg d st' ∧
        st.turn ≤ st'.turn ∧
        (st.turn < cfg.turns → 1 ≤ steps → st.turn < st'.turn) := by
  intro steps
  induction steps with
  | zero =>
    intro st hInv
    exact ⟨st, rfl, hInv, le_refl _, fun _ h => absurd h (by omega)⟩
  | succ steps ih =>
    intro st hInv
    by_cases hlt : st.turn < cfg.turns
    · obtain ⟨hc, ht1, ht2, hl, hle⟩ := hInv
      have step :
          innerLoop cfg d (steps + 1) st =
            innerLoop cfg d steps
              { st with
                nextCnt := st.nextCnt + 1
                execCnt := st.execCnt + 1
                storyContext :=
                  (let content := goTrimSpace (cont st.execCnt)
                   if content ≠ "" then
                     if st.storyContext ≠ "" then st.storyContext ++ " " ++ content
                     else content
                   else st.storyContext)
                latencyPerTurnMs := st.latencyPerTurnMs ++ [d.elapsedMs st.execCnt]
                ttftPerTurn := st.ttftPerTurn ++ [(0 : ℚ)]
                tpotPerTurn := st.tpotPerTurn ++ [(0 : ℚ)]
                prompts := st.prompts ++ [decoratedPrompt cfg st.turn st.storyContext]
                turn := st.turn + 1 } := by
        simp only [innerLoop, hlt, if_true, hn st.nextCnt, Bool.false_eq_true, if_false,
          he st.execCnt (decoratedPrompt cfg st.turn st.storyContext)]
      rw [step]
      have hInv1 : NoMetricsInv cfg d
          { st with
            nextCnt := st.nextCnt + 1
            execCnt := st.execCnt + 1
            storyContext :=
              (let content := goTrimSpace (cont st.execCnt)
               if content ≠ "" then
                 if st.storyContext ≠ "" then st.storyContext ++ " " ++ content
                 else content
               else st.storyContext)
            latencyPerTurnMs := st.latencyPerTurnMs ++ [d.elapsedMs st.execCnt]
            ttftPerTurn := st.ttftPerTurn ++ [(0 : ℚ)]
            tpotPerTurn := st.tpotPerTurn ++ [(0 : ℚ)]
            prompts := st.prompts ++ [decoratedPrompt cfg st.turn st.storyContext]
            turn := st.turn + 1 } := by
        refine ⟨by simp [hc], ?_, ?_, ?_, by show st.turn + 1 ≤ cfg.turns; omega⟩
        · simp [ht1, List.replicate_succ' st.turn (0 : ℚ)]
        · simp [ht2, List.replicate_succ' st.turn (0 : ℚ)]
        · simp [hl, hc, List.range_succ]
      obtain ⟨st', heq, hInv', hmono, -⟩ := ih _ hInv1
      have hmono' : st.turn + 1 ≤ st'.turn := hmono
      exact ⟨st', heq, hInv', by omega, fun _ _ => by omega⟩
    · refine ⟨st, ?_, hInv, le_refl _, fun h => absurd h hlt⟩
      simp only [innerLoop, hlt, if_false]

theorem outerLoop_noMetrics (cfg : StoryCfg) (d : StoryDaemon)
    (eIds tIdx : ℕ → ℕ) (cont : ℕ → String)
    (hs : ∀ n, d.startWorkflow n = Except.ok (eIds n))
    (hn : ∀ n, d.getNextTask n = Except.ok (tIdx n, false))
    (he : ∀ n p, d.executeTask n p = Except.ok { content := cont n, metrics := none }) :
    ∀ (fuel : ℕ) (st : StoryState), NoMetricsInv cfg d st →
      cfg.turns ≤ st.turn + fuel →
      ∃ st', outerLoop cfg d fuel st = StoryOutcome.ok (mkStoryResult cfg st') ∧
        NoMetricsInv cfg d st' ∧ st'.turn = cfg.turns := by
  intro fuel
  induction fuel with
  | zero =>
    intro st hInv hfuel
    have hge : ¬ st.turn < cfg.turns := by omega
    refine ⟨st, ?_, hInv, Nat.le_antisymm hInv.2.2.2.2 (by omega)⟩
    simp only [outerLoop, hge, if_false]
  | succ fuel ih =>
    intro st hInv hfuel
    by_cases hlt : st.turn < cfg.turns
    · have hInv' : NoMetricsInv cfg d { st with startCnt := st.startCnt + 1 } :=
        ⟨hInv.1, hInv.2.1, hInv.2.2.1, hInv.2.2.2.1, hInv.2.2.2.2⟩
      obtain ⟨st1, hin, hInv1, hmono, hprog⟩ :=
        innerLoop_noMetrics cfg d tIdx cont hn he 2
          { st with startCnt := st.startCnt + 1 } hInv'
      have hprog' : st.turn < st1.turn := hprog hlt (by omega)
      obtain ⟨st', hout, hInv2, hturn⟩ := ih st1 hInv1 (by omega)
      refine ⟨st', ?_, hInv2, hturn⟩
      simp only [outerLoop, hlt, if_true, hs st.startCnt, hin, hout]
    · refine ⟨st, ?_, hInv, Nat.le_antisymm hInv.2.2.2.2 (by omega)⟩
      simp only [outerLoop, hlt, if_false]

/-- C9: against a daemon whose `execute_task` replies carry no metrics block
(`resp.Metrics` nil) while all RPCs succeed and `next_task` never signals
complete, the story run still returns successfully, records one turn record
per turn (TTFT and TPOT both 0), and records the measured wall-clock elapsed
latency for every turn. -/
theorem story_nil_metrics_records_zero (cfg : StoryCfg) (d : StoryDaemon)
    (fuel : ℕ) (eIds tIdx : ℕ → ℕ) (cont : ℕ → String)
    (hs : ∀ n, d.startWorkflow n = Except.ok (eIds n))
    (hn : ∀ n, d.getNextTask n = Except.ok (tIdx n, false))
    (he : ∀ n p, d.executeTask n p = Except.ok { content := cont n, metrics := none })
    (hfuel : cfg.turns ≤ fuel) :
    (runStoryFinishing cfg d fuel).isOk = true ∧
    (runStoryFinishing cfg d fuel).result.ttftPerTurn = List.replicate cfg.turns 0 ∧
    (runStoryFinishing cfg d fuel).result.tpotPerTurn = List.replicate cfg.turns 0 ∧
    (runStoryFinishing cfg d fuel).result.latencyPerTurnMs =
      (List.range cfg.turns).map d.elapsedMs := by
  have hInv0 : NoMetricsInv cfg d initStoryState := ⟨rfl, rfl, rfl, rfl, Nat.zero_le _⟩
  obtain ⟨st', hout, hInv', hturn⟩ :=
    outerLoop_noMetrics cfg d eIds tIdx cont hs hn he fuel initStoryState hInv0
      (by show cfg.turns ≤ 0 + fuel; omega)
  unfold runStoryFinishing
  rw [hout]
  exact ⟨rfl, by simp [StoryOutcome.result, mkStoryResult, hInv'.2.1, hturn],
    by simp [StoryOutcome.result, mkStoryResult, hInv'.2.2.1, hturn],
    by simp [StoryOutcome.result, mkStoryResult, hInv'.2.2.2.1, hturn]⟩

/-- Concrete daemon oracle whose replies never carry a metrics block. -/
def storyDaemonNM : StoryDaemon :=
  { startWorkflow := fun n => Except.ok n
    getNextTask := fun n => Except.ok (n, false)
    executeTask := fun _ _ => Except.ok { content := "go", metrics := none }
    elapsedMs := fun n => (n : ℚ) }

theorem story_nil_metrics_records_zero_witness :
    storyDaemonNM.executeTask 0 "" = Except.ok { content := "go", metrics := none } ∧
    storyCfgSP.turns ≤ 2 ∧
    ((runStoryFinishing storyCfgSP storyDaemonNM 2).isOk = true ∧
      (runStoryFinishing storyCfgSP storyDaemonNM 2).result.ttftPerTurn =
        List.replicate storyCfgSP.turns 0 ∧
      (runStoryFinishing storyCfgSP storyDaemonNM 2).result.tpotPerTurn =
        List.replicate storyCfgSP.turns 0 ∧
      (runStoryFinishing storyCfgSP storyDaemonNM 2).result.latencyPerTurnMs =
        (List.range storyCfgSP.turns).map storyDaemonNM.elapsedMs) :=
  ⟨rfl, by decide,
    story_nil_metrics_records_zero storyCfgSP storyDaemonNM 2 (fun n => n) (fun n => n)
      (fun _ => "go") (fun _ => rfl) (fun _ => rfl) (fun _ _ => rfl) (by decide)⟩

/-! ## C2 -/

theorem strStartsWith_append_left (p rest : String) : strStartsWith p (p ++ rest) := by
  unfold strStartsWith
  rw [String.data_append]
  exact List.take_left _ _

theorem data_length_le_append (s t : String) : s.data.length ≤ (s ++ t).data.length := by
  rw [String.data_append, List.length_append]
  exact Nat.le_add_right _ _

theorem strStartsWith_append_iff (p s t : String)
    (hlen : p.data.length ≤ s.data.length) :
    strStartsWith p (s ++ t) ↔ strStartsWith p s := by
  unfold strStartsWith
  rw [String.data_append, List.take_append_of_le_length hlen]

theorem strStartsWith_append_of (p s t : String) (h : strStartsWith p s) :
    strStartsWith p (s ++ t) := by
  have hlen : p.data.length ≤ s.data.length := by
    have hl := congrArg List.length h
    simp only [List.length_take] at hl
    omega
  exact (strStartsWith_append_iff p s t hlen).mpr h

/-- Every story prompt built from the template begins with the template's
opening words. -/
theorem storyPrompt_startsWe (k : ℕ) (ctx : String) :
    strStartsWith "We are playing" (storyPrompt k ctx) := by
  unfold storyPrompt
  exact strStartsWith_append_of _ _ _ (strStartsWith_append_of _ _ _
    (strStartsWith_append_of _ _ _ (strStartsWith_append_of _ _ _
      (strStartsWith_append_of _ _ _ (by decide)))))

/-- A string that begins with the template's opening words cannot begin with
`Request `. -/
theorem not_request_of_startsWe (s : String)
    (h : strStartsWith "We are playing" s) : ¬ strStartsWith "Request " s := by
  intro hr
  unfold strStartsWith at h hr
  have h8 := congrArg (List.take ("Request " : String).data.length) h
  rw [List.take_take] at h8
  have hmin : min ("Request " : String).data.length
      ("We are playing" : String).data.length
      = ("Request " : String).data.length := by decide
  rw [hmin] at h8
  rw [hr] at h8
  exact absurd h8 (by decide)

/-- The per-request tags of two different turns are distinct strings. -/
theorem requestTag_injective : Function.Injective requestTag := by
  intro a b hab
  unfold requestTag at hab
  have hdata := congrArg String.data hab
  rw [String.data_append, String.data_append, String.data_append,
    String.data_append] at hdata
  have h2 := List.append_cancel_right hdata
  have h3 := List.append_cancel_left h2
  exact natRepr_injective (String.ext h3)

/-- Shape of the prompt submitted for 0-based turn `i`: with vLLM + flush it
begins with that turn's request tag; otherwise it begins with the template
words and carries no `Request ` tag. -/
def PromptPred (cfg : StoryCfg) (i : ℕ) (p : String) : Prop :=
  (cfg.backendType = "vllm" ∧ cfg.cacheStrategy = "flush" →
    strStartsWith (requestTag i) p) ∧
  (¬ (cfg.backendType = "vllm" ∧ cfg.cacheStrategy = "flush") →
    strStartsWith "We are playing" p ∧ ¬ strStartsWith "Request " p)

theorem decoratedPrompt_pred (cfg : StoryCfg) (i : ℕ) (ctx : String) :
    PromptPred cfg i (decoratedPrompt cfg i ctx) := by
  unfold decoratedPrompt
  by_cases hc : cfg.backendType = "vllm" ∧ cfg.cacheStrategy = "flush"
  · simp only [hc, if_true]
    exact ⟨fun _ => strStartsWith_append_left _ _, fun hn => absurd hc hn⟩
  · simp only [hc, if_false]
    exact ⟨fun hp => absurd hp hc,
      fun _ => ⟨storyPrompt_startsWe _ _,
        not_request_of_startsWe _ (storyPrompt_startsWe _ _)⟩⟩

/-- Prompt-trace invariant: one prompt per executed turn, each of the
required shape for its 0-based turn index. -/
def PromptInv (cfg : StoryCfg) (st : StoryState) : Prop :=
  st.prompts.length = st.turn ∧
  ∀ i, i < st.turn → PromptPred cfg i (st.prompts.getD i "")

theorem innerLoop_prompts (cfg : StoryCfg) (d : StoryDaemon) :
    ∀ (steps : ℕ) (st st' : StoryState), PromptInv cfg st →
      innerLoop cfg d steps st = Except.ok st' → PromptInv cfg st' := by
  intro steps
  induction steps with
  | zero =>
    intro st st' hInv h
    simp only [innerLoop] at h
    cases h
    exact hInv
  | succ steps ih =>
    intro st st' hInv h
    simp only [innerLoop] at h
    by_cases hlt : st.turn < cfg.turns
    · simp only [hlt, if_true] at h
      cases hnext : d.getNextTask st.nextCnt with
      | error e => rw [hnext] at h; cases h
      | ok pr =>
        rw [hnext] at h
        obtain ⟨ti, complete⟩ := pr
        cases complete with
        | true =>
          simp only [if_true] at h
          cases h
          exact ⟨hInv.1, hInv.2⟩
        | false =>
          simp only [Bool.false_eq_true, if_false] at h
          cases hexec : d.executeTask st.execCnt
              (decoratedPrompt cfg st.turn st.storyContext) with
          | error e => rw [hexec] at h; cases h
          | ok resp =>
            rw [hexec] at h
            refine ih _ st' ⟨?_, ?_⟩ h
            · simp [List.length_append, hInv.1]
            · intro i hi
              show PromptPred cfg i
                ((st.prompts ++ [decoratedPrompt cfg st.turn st.storyContext]).getD i "")
              rcases Nat.lt_or_ge i st.turn with hlt2 | hge
              · rw [List.getD_append _ _ _ _ (by have hl := hInv.1; omega)]
                exact hInv.2 i hlt2
              · have hi2 : i < st.turn + 1 := hi
                have hieq : i = st.turn := by omega
                subst hieq
                have hlen : st.prompts.length = st.turn := hInv.1
                have hgetD : ∀ p : String, (st.prompts ++ [p]).getD st.turn "" = p := by
                  intro p
                  rw [← hlen]
                  simp [List.getD_append_right]
                rw [hgetD]
                exact decoratedPrompt_pred cfg st.turn st.storyContext
    · simp only [hlt, if_false] at h
      cases h
      exact hInv

theorem outerLoop_prompts (cfg : StoryCfg) (d : StoryDaemon) :
    ∀ (fuel : ℕ) (st : StoryState) (r : StoryResult), PromptInv cfg st →
      outerLoop cfg d fuel st = StoryOutcome.ok r →
      ∃ st', r = mkStoryResult cfg st' ∧ PromptInv cfg st' := by
  intro fuel
  induction fuel with
  | zero =>
    intro st r hInv h
    simp only [outerLoop] at h
    by_cases hlt : st.turn < cfg.turns
    · simp [hlt] at h
    · simp only [hlt, if_false] at h
      cases h
      exact ⟨st, rfl, hInv⟩
  | succ fuel ih =>
    intro st r hInv h
    simp only [outerLoop] at h
    by_cases hlt : st.turn < cfg.turns
    · simp only [hlt, if_true] at h
      cases hstart : d.startWorkflow st.startCnt with
      | error e => rw [hstart] at h; cases h
      | ok execId =>
        rw [hstart] at h
        cases hin : innerLoop cfg d 2 { st with startCnt := st.startCnt + 1 } with
        | error e => rw [hin] at h; cases h
        | ok st1 =>
          rw [hin] at h
          have hInv1 : PromptInv cfg st1 :=
            innerLoop_prompts cfg d 2 { st with startCnt := st.startCnt + 1 } st1
              ⟨hInv.1, hInv.2⟩ hin
          exact ih st1 r hInv1 h
    · simp only [hlt, if_false] at h
      cases h
      exact ⟨st, rfl, hInv⟩

/-- C2 (amended): for backend-type vllm with cache-strategy flush, the prompt
submitted on 0-based turn `i` begins with the tag `Request i.` — so the first
executed turn's prompt begins `Request 0.`, the second `Request 1.` — and the
tags of distinct turns are distinct; for backend-type sglang or cache-strategy
preserve, no prompt carries a `Request ` tag. -/
theorem story_prompt_request_tags (cfg : StoryCfg) (d : StoryDaemon) (fuel : ℕ)
    (r : StoryResult) (i j : ℕ)
    (h : runStoryFinishing cfg d fuel = StoryOutcome.ok r)
    (hi : i < r.prompts.length) (hj : j < r.prompts.length) (hij : i ≠ j) :
    (cfg.backendType = "vllm" ∧ cfg.cacheStrategy = "flush" →
      strStartsWith (requestTag i) (r.prompts.getD i "") ∧
      strStartsWith (requestTag j) (r.prompts.getD j "") ∧
      requestTag i ≠ requestTag j) ∧
    (¬ (cfg.backendType = "vllm" ∧ cfg.cacheStrategy = "flush") →
      strStartsWith "We are playing" (r.prompts.getD i "") ∧
      ¬ strStartsWith "Request " (r.prompts.getD i "")) := by
  have hInv0 : PromptInv cfg initStoryState :=
    ⟨rfl, fun i hi => absurd hi (Nat.not_lt_zero i)⟩
  obtain ⟨st', hr, hInv⟩ := outerLoop_prompts cfg d fuel initStoryState r hInv0 h
  subst hr
  have hi' : i < st'.turn := by
    have := hInv.1
    simp only [mkStoryResult] at hi
    omega
  have hj' : j < st'.turn := by
    have := hInv.1
    simp only [mkStoryResult] at hj
    omega
  constructor
  · intro hvf
    exact ⟨(hInv.2 i hi').1 hvf, (hInv.2 j hj').1 hvf,
      fun he => hij (requestTag_injective he)⟩
  · intro hnv
    exact (hInv.2 i hi').2 hnv

/-- C2 (counterexample): in the spec's own scenario — backend-type vllm,
cache-strategy flush, 2 turns — the run succeeds, yet the prompt of the first
executed turn does NOT begin with `Request 1.` as claimed: it begins with
`Request 0.`, and it is the second turn whose prompt begins `Request 1.`
(the tag renders the 0-based turn counter, main_test.go line 553). -/
theorem story_prompt_request_tags_counterexample :
    (runStoryFinishing storyCfgVF storyDaemonA 1).isOk = true ∧
    ¬ strStartsWith "Request 1.\n\n"
        ((runStoryFinishing storyCfgVF storyDaemonA 1).result.prompts.getD 0 "") ∧
    strStartsWith "Request 0.\n\n"
        ((runStoryFinishing storyCfgVF storyDaemonA 1).result.prompts.getD 0 "") ∧
    strStartsWith "Request 1.\n\n"
        ((runStoryFinishing storyCfgVF storyDaemonA 1).result.prompts.getD 1 "") :=
  ⟨rfl, by decide, by decide, by decide⟩

theorem story_prompt_request_tags_witness :
    runStoryFinishing storyCfgVF storyDaemonA 1 =
      StoryOutcome.ok ((runStoryFinishing storyCfgVF storyDaemonA 1).result) ∧
    (0 : ℕ) < (runStoryFinishing storyCfgVF storyDaemonA 1).result.prompts.length ∧
    (1 : ℕ) < (runStoryFinishing storyCfgVF storyDaemonA 1).result.prompts.length ∧
    (strStartsWith (requestTag 0)
        ((runStoryFinishing storyCfgVF storyDaemonA 1).result.prompts.getD 0 "") ∧
      strStartsWith (requestTag 1)
        ((runStoryFinishing storyCfgVF storyDaemonA 1).result.prompts.getD 1 "") ∧
      requestTag 0 ≠ requestTag 1) ∧
    (strStartsWith "We are playing"
        ((runStoryFinishing storyCfgSP storyDaemonA 1).result.prompts.getD 0 "") ∧
      ¬ strStartsWith "Request "
        ((runStoryFinishing storyCfgSP storyDaemonA 1).result.prompts.getD 0 "")) := by
  have h1 : runStoryFinishing storyCfgVF storyDaemonA 1 =
      StoryOutcome.ok ((runStoryFinishing storyCfgVF storyDaemonA 1).result) := rfl
  have h2 : runStoryFinishing storyCfgSP storyDaemonA 1 =
      StoryOutcome.ok ((runStoryFinishing storyCfgSP storyDaemonA 1).result) := rfl
  have m1 := (story_prompt_request_tags storyCfgVF storyDaemonA 1
    ((runStoryFinishing storyCfgVF storyDaemonA 1).result) 0 1 h1
    (by decide) (by decide) (by decide)).1 ⟨rfl, rfl⟩
  have m2 := (story_prompt_request_tags storyCfgSP storyDaemonA 1
    ((runStoryFinishing storyCfgSP storyDaemonA 1).result) 0 1 h2
    (by decide) (by decide) (by decide)).2 (by decide)
  refine ⟨h1, by decide, by decide, ⟨m1.1, ?_, m1.2.2⟩, m2⟩
  have m1j := (story_prompt_request_tags storyCfgVF storyDaemonA 1
    ((runStoryFinishing storyCfgVF storyDaemonA 1).result) 1 0 h1
    (by decide) (by decide) (by decide)).1 ⟨rfl, rfl⟩
  exact m1j.1

/-! ## C3 -/

/-- Parsed flags of the spec scenario `--turns 4 --k 8 --cache-strategy
preserve --backend http://X` (other flags at their defaults). -/
def storyFlagsP4 : StoryFlags :=
  { turns := 4, k := 8, cacheStrategy := "preserve", backendType := "sglang",
    backend := "http://X", noiseRate := 0, startSGLang := false,
    startVLLM := false, output := "" }

/-- C3 (counterexample): the orchestrator run with `--turns 4
--cache-strategy preserve` writes the config produced by
`createStoryFinishingConfig`, which ignores the turn count: the config has
`policy: preserve` but exactly 2 task slots, not 4. -/
theorem story_config_task_slots_counterexample :
    mainStartup true storyFlagsP4 =
      StartupResult.proceed [StartAction.killallOrla, StartAction.writeConfigFile]
        (createStoryFinishingConfig "sglang" "http://X" "preserve") ∧
    (createStoryFinishingConfig "sglang" "http://X" "preserve").policy = "preserve" ∧
    (createStoryFinishingConfig "sglang" "http://X" "preserve").tasks.length = 2 ∧
    ¬ ((createStoryFinishingConfig "sglang" "http://X" "preserve").tasks.length = 4) := by
  refine ⟨by decide, by decide, by decide, by decide⟩

/-- C3 (amended): the `--policy` variant's `createConfig` emits exactly
`turns` task slots alternating `story_agent_a`, `story_agent_b` beginning
with `story_agent_a`, none carrying a `use_context` key; the `--cache-strategy`
orchestrator's `createStoryFinishingConfig` always emits exactly the two task
slots `agent_i`, `agent_j`, each carrying `use_context: false`, with policy
`preserve` unless the strategy is `flush` (then `aggressive_flush`). -/
theorem story_config_task_slots (policy : String) (turns : ℕ) (backend model : String)
    (smallTurnThreshold : ℕ) (bt be cs : String) (i : ℕ) (hi : i < turns) :
    ((createConfig policy turns backend model smallTurnThreshold).tasks.length = turns ∧
      ((createConfig policy turns backend model smallTurnThreshold).tasks.getD i
          { agentProfile := "", useContext := none }).agentProfile =
        (if i % 2 = 1 then "story_agent_b" else "story_agent_a") ∧
      ((createConfig policy turns backend model smallTurnThreshold).tasks.getD i
          { agentProfile := "", useContext := none }).useContext = none) ∧
    ((createStoryFinishingConfig bt be cs).tasks =
        [{ agentProfile := "agent_i", useContext := some false },
         { agentProfile := "agent_j", useContext := some false }] ∧
      (createStoryFinishingConfig bt be cs).policy =
        (if cs = "flush" then "aggressive_flush" else "preserve")) := by
  constructor
  · have hlen : (createConfig policy turns backend model smallTurnThreshold).tasks.length
        = turns := by
      simp [createConfig]
    have hi' : i < (createConfig policy turns backend model smallTurnThreshold).tasks.length := by
      omega
    refine ⟨hlen, ?_, ?_⟩
    · rw [List.getD_eq_getElem _ _ hi']
      simp [createConfig]
    · rw [List.getD_eq_getElem _ _ hi']
      simp [createConfig]
  · by_cases hbt : bt = "vllm" <;>
      simp [createStoryFinishingConfig, hbt]

theorem story_config_task_slots_witness :
    (1 : ℕ) < 4 ∧
    ((createConfig "preserve" 4 "http://X" "sglang:mistralai/Mistral-7B-Instruct-v0.3" 100).tasks.length = 4 ∧
      ((createConfig "preserve" 4 "http://X" "sglang:mistralai/Mistral-7B-Instruct-v0.3" 100).tasks.getD 1
          { agentProfile := "", useContext := none }).agentProfile =
        (if 1 % 2 = 1 then "story_agent_b" else "story_agent_a") ∧
      ((createConfig "preserve" 4 "http://X" "sglang:mistralai/Mistral-7B-Instruct-v0.3" 100).tasks.getD 1
          { agentProfile := "", useContext := none }).useContext = none) ∧
    ((createStoryFinishingConfig "sglang" "http://X" "preserve").tasks =
        [{ agentProfile := "agent_i", useContext := some false },
         { agentProfile := "agent_j", useContext := some false }] ∧
      (createStoryFinishingConfig "sglang" "http://X" "preserve").policy =
        (if "preserve" = "flush" then "aggressive_flush" else "preserve")) := by
  have main := story_config_task_slots "preserve" 4 "http://X"
    "sglang:mistralai/Mistral-7B-Instruct-v0.3" 100 "sglang" "http://X" "preserve" 1
    (by decide)
  exact ⟨by decide, main.1, main.2⟩

/-! ## C1 -/

theorem cascadeLoop_success (d : CascadeDaemon) (eIds tIdx : ℕ → ℕ)
    (hs : ∀ n, d.startWorkflow n = Except.ok (eIds n))
    (hn : ∀ n, d.getNextTask n = Except.ok (tIdx n, false))
    (he : ∀ n p, d.executeTask n p = Except.ok ()) :
    ∀ (k numTasks i : ℕ) (st : CascadeState), numTasks - i = k →
      ∃ st', cascadeLoop d numTasks i st = Except.ok st' ∧
        st'.analysisTimes.length =
          st.analysisTimes.length + (min numTasks cascadeTasks.length - i) ∧
        st'.synthesisTimes.length =
          st.synthesisTimes.length + (min numTasks cascadeTasks.length - i) ∧
        st'.summaryTimes.length =
          st.summaryTimes.length + (min numTasks cascadeTasks.length - i) ∧
        st'.totalTimes.length =
          st.totalTimes.length + (min numTasks cascadeTasks.length - i) := by
  intro k
  induction k with
  | zero =>
    intro numTasks i st hk
    have hng : ¬ (i < numTasks ∧ i < cascadeTasks.length) := by omega
    refine ⟨st, ?_, by omega, by omega, by omega, by omega⟩
    rw [cascadeLoop, dif_neg hng]
  | succ k ih =>
    intro numTasks i st hk
    by_cases hg : i < numTasks ∧ i < cascadeTasks.length
    · have hiter : ∀ task, cascadeIteration d task st = CascadeStep.next
          { startCnt := st.startCnt + 1, nextCnt := st.nextCnt + 3,
            execCnt := st.execCnt + 3,
            analysisTimes := st.analysisTimes ++ [d.stageElapsedMs st.execCnt],
            synthesisTimes := st.synthesisTimes ++ [d.stageElapsedMs (st.execCnt + 1)],
            summaryTimes := st.summaryTimes ++ [d.stageElapsedMs (st.execCnt + 2)],
            totalTimes := st.totalTimes ++ [d.taskElapsedMs st.startCnt] } := by
        intro task
        simp only [cascadeIteration, hs, hn, he, Bool.false_eq_true, if_false]
      obtain ⟨st', hloop, h1, h2, h3, h4⟩ := ih numTasks (i + 1)
        { startCnt := st.startCnt + 1, nextCnt := st.nextCnt + 3,
          execCnt := st.execCnt + 3,
          analysisTimes := st.analysisTimes ++ [d.stageElapsedMs st.execCnt],
          synthesisTimes := st.synthesisTimes ++ [d.stageElapsedMs (st.execCnt + 1)],
          summaryTimes := st.summaryTimes ++ [d.stageElapsedMs (st.execCnt + 2)],
          totalTimes := st.totalTimes ++ [d.taskElapsedMs st.startCnt] }
        (by omega)
      have hmin : i < min numTasks cascadeTasks.length := lt_min hg.1 hg.2
      refine ⟨st', ?_, ?_, ?_, ?_, ?_⟩
      · rw [cascadeLoop, dif_pos hg, hiter]
        exact hloop
      · have h1' : st'.analysisTimes.length =
            st.analysisTimes.length + 1 + (min numTasks cascadeTasks.length - (i + 1)) := by
          simpa [List.length_append] using h1
        omega
      · have h2' : st'.synthesisTimes.length =
            st.synthesisTimes.length + 1 + (min numTasks cascadeTasks.length - (i + 1)) := by
          simpa [List.length_append] using h2
        omega
      · have h3' : st'.summaryTimes.length =
            st.summaryTimes.length + 1 + (min numTasks cascadeTasks.length - (i + 1)) := by
          simpa [List.length_append] using h3
        omega
      · have h4' : st'.totalTimes.length =
            st.totalTimes.length + 1 + (min numTasks cascadeTasks.length - (i + 1)) := by
          simpa [List.length_append] using h4
        omega
    · have hk0 : min numTasks cascadeTasks.length - i = 0 := by omega
      refine ⟨st, ?_, by omega, by omega, by omega, by omega⟩
      rw [cascadeLoop, dif_neg hg]

/-- Shared helper: against an all-success, never-complete daemon, the cascade
experiment returns a result whose four time arrays each have exactly
`min numTasks 20` entries. -/
theorem runExperiment_lengths (d : CascadeDaemon) (mode : String) (numTasks : ℕ)
    (eIds tIdx : ℕ → ℕ)
    (hs : ∀ n, d.startWorkflow n = Except.ok (eIds n))
    (hn : ∀ n, d.getNextTask n = Except.ok (tIdx n, false))
    (he : ∀ n p, d.executeTask n p = Except.ok ()) :
    (runExperiment d mode numTasks).isOk = true ∧
    (runExperiment d mode numTasks).result.analysisTimes.length =
      min numTasks cascadeTasks.length ∧
    (runExperiment d mode numTasks).result.synthesisTimes.length =
      min numTasks cascadeTasks.length ∧
    (runExperiment d mode numTasks).result.summaryTimes.length =
      min numTasks cascadeTasks.length ∧
    (runExperiment d mode numTasks).result.totalTimes.length =
      min numTasks cascadeTasks.length := by
  obtain ⟨st', hloop, h1, h2, h3, h4⟩ :=
    cascadeLoop_success d eIds tIdx hs hn he numTasks numTasks 0
      { startCnt := 0, nextCnt := 0, execCnt := 0, analysisTimes := [],
        synthesisTimes := [], summaryTimes := [], totalTimes := [] } rfl
  unfold runExperiment
  rw [hloop]
  have h1' : st'.analysisTimes.length = 0 + (min numTasks cascadeTasks.length - 0) := h1
  have h2' : st'.synthesisTimes.length = 0 + (min numTasks cascadeTasks.length - 0) := h2
  have h3' : st'.summaryTimes.length = 0 + (min numTasks cascadeTasks.length - 0) := h3
  have h4' : st'.totalTimes.length = 0 + (min numTasks cascadeTasks.length - 0) := h4
  refine ⟨rfl, ?_, ?_, ?_, ?_⟩
  · show st'.analysisTimes.length = min numTasks cascadeTasks.length
    omega
  · show st'.synthesisTimes.length = min numTasks cascadeTasks.length
    omega
  · show st'.summaryTimes.length = min numTasks cascadeTasks.length
    omega
  · show st'.totalTimes.length = min numTasks cascadeTasks.length
    omega

/-- Concrete cascade daemon oracle: every RPC succeeds and `next_task` never
signals complete. -/
def cascadeDaemonOk : CascadeDaemon :=
  { startWorkflow := fun n => Except.ok n
    getNextTask := fun n => Except.ok (n % 3, false)
    executeTask := fun _ _ => Except.ok ()
    stageElapsedMs := fun n => (n : ℚ)
    taskElapsedMs := fun n => (n : ℚ) }

/-- C1 (counterexample): with `num_tasks = 21` and a daemon that always
succeeds, the cascade run completes successfully but executes only 20
pipelines — `analysis_times` has 20 entries, not 21 — because the loop bound
`i < numTasks && i < len(tasks)` caps the run at the 20-item task list. -/
theorem cascade_pipeline_count_counterexample :
    (runExperiment cascadeDaemonOk "baseline" 21).isOk = true ∧
    (runExperiment cascadeDaemonOk "baseline" 21).result.analysisTimes.length = 20 ∧
    ¬ ((runExperiment cascadeDaemonOk "baseline" 21).result.analysisTimes.length = 21) := by
  have hlen : cascadeTasks.length = 20 := rfl
  obtain ⟨hok, h1, h2, h3, h4⟩ := runExperiment_lengths cascadeDaemonOk "baseline" 21
    (fun n => n) (fun n => n % 3) (fun _ => rfl) (fun _ => rfl) (fun _ _ => rfl)
  refine ⟨hok, ?_, ?_⟩ <;> rw [h1, hlen] <;> omega

/-- C1 (amended): for every cascade run against an all-success daemon,
`runExperiment` executes exactly `min numTasks 20` three-stage pipelines —
the fixed issue list has 20 entries and the loop bound `i < numTasks && i <
len(tasks)` caps the run there, so the round-robin index `i % 20` never
wraps — and emits `min numTasks 20` entries in each of `analysis_times`,
`synthesis_times`, `summary_times` (hence `3·numTasks` stage records exactly
when `numTasks ≤ 20`). -/
theorem cascade_pipeline_count (d : CascadeDaemon) (mode : String) (numTasks : ℕ)
    (eIds tIdx : ℕ → ℕ)
    (hs : ∀ n, d.startWorkflow n = Except.ok (eIds n))
    (hn : ∀ n, d.getNextTask n = Except.ok (tIdx n, false))
    (he : ∀ n p, d.executeTask n p = Except.ok ()) :
    cascadeTasks.length = 20 ∧
    (runExperiment d mode numTasks).isOk = true ∧
    (runExperiment d mode numTasks).result.analysisTimes.length = min numTasks 20 ∧
    (runExperiment d mode numTasks).result.synthesisTimes.length = min numTasks 20 ∧
    (runExperiment d mode numTasks).result.summaryTimes.length = min numTasks 20 ∧
    (runExperiment d mode numTasks).result.totalTimes.length = min numTasks 20 := by
  have hlen : cascadeTasks.length = 20 := rfl
  obtain ⟨hok, h1, h2, h3, h4⟩ :=
    runExperiment_lengths d mode numTasks eIds tIdx hs hn he
  rw [hlen] at h1 h2 h3 h4
  exact ⟨hlen, hok, h1, h2, h3, h4⟩

theorem cascade_pipeline_count_witness :
    cascadeDaemonOk.startWorkflow 0 = Except.ok 0 ∧
    cascadeDaemonOk.getNextTask 0 = Except.ok (0, false) ∧
    (cascadeTasks.length = 20 ∧
      (runExperiment cascadeDaemonOk "baseline" 5).isOk = true ∧
      (runExperiment cascadeDaemonOk "baseline" 5).result.analysisTimes.length = min 5 20 ∧
      (runExperiment cascadeDaemonOk "baseline" 5).result.synthesisTimes.length = min 5 20 ∧
      (runExperiment cascadeDaemonOk "baseline" 5).result.summaryTimes.length = min 5 20 ∧
      (runExperiment cascadeDaemonOk "baseline" 5).result.totalTimes.length = min 5 20) :=
  ⟨rfl, rfl,
    cascade_pipeline_count cascadeDaemonOk "baseline" 5 (fun n => n) (fun n => n % 3)
      (fun _ => rfl) (fun _ => rfl) (fun _ _ => rfl)⟩

/-! ## C6 -/

/-- C6: behavior of the teardown functions at every outcome environment. When
`docker rm -f` fails — including when the container is already absent —
`stopSGLangTmux`/`stopVLLMTmux` hit `log.Fatalf`: the process exits on the
spot, the tmux window is never killed, and the remaining deferred teardown
(config-file removal) is skipped; only a `tmux kill-window` failure is merely
logged. This exhibits the code's divergence from the claim that teardown
failures are only logged and the remaining actions still run. -/
theorem teardown_rm_failure_exits (rmF kwF : Bool) :
    (stopSGLangTmux { rmFails := rmF, killWindowFails := kwF } =
      if rmF then StopResult.fatalExit [TAction.dockerRmContainer]
      else StopResult.returned [TAction.dockerRmContainer, TAction.tmuxKillWindow]) ∧
    (stopVLLMTmux { rmFails := rmF, killWindowFails := kwF } =
      if rmF then StopResult.fatalExit [TAction.dockerRmContainer]
      else StopResult.returned [TAction.dockerRmContainer, TAction.tmuxKillWindow]) ∧
    (mainDeferredTeardown { rmFails := true, killWindowFails := kwF } =
      ([TAction.killDaemonProcess, TAction.dockerRmContainer], true)) ∧
    ¬ TAction.tmuxKillWindow ∈
        (mainDeferredTeardown { rmFails := true, killWindowFails := kwF }).1 ∧
    ¬ TAction.removeConfigFile ∈
        (mainDeferredTeardown { rmFails := true, killWindowFails := kwF }).1 := by
  cases rmF <;> cases kwF <;> decide

/-! ## C7 -/

/-- Parsed flags with an invalid cache strategy and all other flags at their
defaults. -/
def storyFlagsBadCache : StoryFlags :=
  { turns := 100, k := 32, cacheStrategy := "bogus", backendType := "sglang",
    backend := "http://localhost:30000", noiseRate := 0, startSGLang := false,
    startVLLM := false, output := "" }

/-- C7 (counterexample): with an invalid cache-strategy value the orchestrator
does exit nonzero at startup before writing any config — but not before the
unconditional `killall orla` (main_test.go line 266): the abort happens with
one external action already taken, contradicting "no external action taken
before the abort". -/
theorem config_error_counterexample :
    mainStartup true storyFlagsBadCache =
      StartupResult.fatal [StartAction.killallOrla] ∧
    ¬ ([StartAction.killallOrla] = ([] : List StartAction)) := by
  refine ⟨by decide, by decide⟩

/-- C7 (amended): for every flag set whose backend-type and start-flag
combination is valid but whose cache strategy is neither `flush` nor
`preserve`, the orchestrator exits nonzero during startup validation; the
config file is never written and no engine/daemon action is taken — the only
external action preceding the abort is the unconditional `killall orla`. -/
theorem config_error_aborts_after_killall (f : StoryFlags)
    (hbt : f.backendType = "sglang" ∨ f.backendType = "vllm")
    (hsv : ¬ (f.startSGLang ∧ f.startVLLM))
    (hvb : ¬ (f.startVLLM ∧ ¬ f.backendType = "vllm"))
    (hsb : ¬ (f.startSGLang ∧ ¬ f.backendType = "sglang"))
    (hcs : ¬ (f.cacheStrategy = "flush" ∨ f.cacheStrategy = "preserve")) :
    mainStartup true f = StartupResult.fatal [StartAction.killallOrla] := by
  unfold mainStartup
  simp only [not_true, if_false, hbt, not_false_iff, if_true, hsv, hvb, hsb, hcs]

theorem config_error_aborts_after_killall_witness :
    (storyFlagsBadCache.backendType = "sglang" ∨ storyFlagsBadCache.backendType = "vllm") ∧
    ¬ (storyFlagsBadCache.cacheStrategy = "flush" ∨
        storyFlagsBadCache.cacheStrategy = "preserve") ∧
    mainStartup true storyFlagsBadCache =
      StartupResult.fatal [StartAction.killallOrla] :=
  ⟨by decide, by decide,
    config_error_aborts_after_killall storyFlagsBadCache (by decide) (by decide)
      (by decide) (by decide) (by decide)⟩

/-! ## C10 -/

/-- C10: both summary-average helpers return 0 on the empty sequence (the
division is reached only under a nonzero length check), so a story run with 0
turns serializes `avg_ttft_ms` and `avg_tpot_ms` as 0 and a cascade run with
0 tasks serializes all four per-stage averages as 0. -/
theorem empty_records_average_zero (k fuel : ℕ) (bt cs mode : String)
    (d : StoryDaemon) (dc : CascadeDaemon) :
    avg [] = 0 ∧ average [] = 0 ∧
    (runStoryFinishing { backendType := bt, cacheStrategy := cs, turns := 0, k := k }
        d fuel).isOk = true ∧
    (runStoryFinishing { backendType := bt, cacheStrategy := cs, turns := 0, k := k }
        d fuel).result.avgTtftMs = 0 ∧
    (runStoryFinishing { backendType := bt, cacheStrategy := cs, turns := 0, k := k }
        d fuel).result.avgTpotMs = 0 ∧
    (runExperiment dc mode 0).isOk = true ∧
    (runExperiment dc mode 0).result.avgAnalysisMs = 0 ∧
    (runExperiment dc mode 0).result.avgSynthesisMs = 0 ∧
    (runExperiment dc mode 0).result.avgSummaryMs = 0 ∧
    (runExperiment dc mode 0).result.avgTotalMs = 0 := by
  have hstory : runStoryFinishing
      { backendType := bt, cacheStrategy := cs, turns := 0, k := k } d fuel =
      StoryOutcome.ok (mkStoryResult
        { backendType := bt, cacheStrategy := cs, turns := 0, k := k } initStoryState) := by
    unfold runStoryFinishing
    cases fuel <;> simp [outerLoop]
  have hcascade : runExperiment dc mode 0 = CascadeOutcome.ok
      { mode := mode, numTasks := 0, avgAnalysisMs := average [],
        avgSynthesisMs := average [], avgSummaryMs := average [],
        avgTotalMs := average [], analysisTimes := [], synthesisTimes := [],
        summaryTimes := [], totalTimes := [] } := by
    unfold runExperiment
    rw [cascadeLoop, dif_neg (by omega)]
  have havg : avg [] = 0 := by simp [avg]
  have haverage : average [] = 0 := by simp [average]
  rw [hstory, hcascade]
  exact ⟨havg, haverage, rfl, havg, havg, rfl, haverage, haverage, haverage, haverage⟩

theorem teardown_rm_failure_exits_witness :
    stopSGLangTmux { rmFails := true, killWindowFails := false } =
      StopResult.fatalExit [TAction.dockerRmContainer] ∧
    stopVLLMTmux { rmFails := true, killWindowFails := false } =
      StopResult.fatalExit [TAction.dockerRmContainer] ∧
    mainDeferredTeardown { rmFails := true, killWindowFails := false } =
      ([TAction.killDaemonProcess, TAction.dockerRmContainer], true) ∧
    ¬ TAction.tmuxKillWindow ∈
        (mainDeferredTeardown { rmFails := true, killWindowFails := false }).1 ∧
    ¬ TAction.removeConfigFile ∈
        (mainDeferredTeardown { rmFails := true, killWindowFails := false }).1 := by
  have m := teardown_rm_failure_exits true false
  exact ⟨m.1, m.2.1, m.2.2.1, m.2.2.2.1, m.2.2.2.2⟩

theorem empty_records_average_zero_witness :
    avg [] = 0 ∧ average [] = 0 ∧
    (runStoryFinishing
        { backendType := "sglang", cacheStrategy := "preserve", turns := 0, k := 4 }
        storyDaemonA 1).isOk = true ∧
    (runStoryFinishing
        { backendType := "sglang", cacheStrategy := "preserve", turns := 0, k := 4 }
        storyDaemonA 1).result.avgTtftMs = 0 ∧
    (runStoryFinishing
        { backendType := "sglang", cacheStrategy := "preserve", turns := 0, k := 4 }
        storyDaemonA 1).result.avgTpotMs = 0 ∧
    (runExperiment cascadeDaemonOk "baseline" 0).isOk = true ∧
    (runExperiment cascadeDaemonOk "baseline" 0).result.avgAnalysisMs = 0 ∧
    (runExperiment cascadeDaemonOk "baseline" 0).result.avgSynthesisMs = 0 ∧
    (runExperiment cascadeDaemonOk "baseline" 0).result.avgSummaryMs = 0 ∧
    (runExperiment cascadeDaemonOk "baseline" 0).result.avgTotalMs = 0 :=
  empty_records_average_zero 4 1 "sglang" "preserve" "baseline" storyDaemonA cascadeDaemonOk
